import Mathlib

/-!
Shallow embedding of `aiogt` (src/aiogt/__init__.py), a graceful-timeout
timer for cooperative async code.  The timer's mutable object state is a
record; each Python method becomes a Lean function from the record (plus
the clock reading `now` where the Python code calls `loop.time()`) to the
updated record together with an optional raised error.  Monotonic clock
times are modelled as integers (any ordered additive model of the loop's
monotonic clock works; the code's branching only compares and adds times).
A scheduled callback handle records how
the callback was registered: `call_soon` (next scheduling opportunity) or
`call_at t` (run at absolute time `t`); `Handle.cancel` on the Python side
does not mutate the timer's fields, so cancelling is invisible in the
record except where the code also clears the field.
-/

/-- The four `_State` IntEnum members of the source: INIT (idle),
ENTER (active), TIMEOUT (expired), EXIT (closed). -/
inductive _State
  | INIT
  | ENTER
  | TIMEOUT
  | EXIT
deriving DecidableEq, Repr

/-- A scheduled-callback handle, tagged by how `_reschedule` registered it:
`loop.call_soon` (deferred to the next scheduling tick) or
`loop.call_at deadline`. -/
inductive Handle
  | soon
  | at_time (t : ℤ)
deriving DecidableEq, Repr

/-- The distinct `RuntimeError`s the source raises, one constructor per
raise site: invalid state on double enter, the unchecked-timer usage error
on exit, reschedule-after-exit, reschedule-after-expiry, and shift with no
deadline. -/
inductive Err
  | invalidState
  | usageError
  | closedError
  | expiredError
  | noDeadline
deriving DecidableEq, Repr

/-- The `exc_type` argument of `__aexit__`/`_do_exit`: no exception, an
`asyncio.CancelledError`, or any other exception type. -/
inductive ExcType
  | noExc
  | cancelled
  | other
deriving DecidableEq, Repr

/-- The `GracefulTimeout` object's slots: `_deadline`, `_state`, the
`asyncio.Event` `_event` (modelled by its fired flag), `_checked`, and
`_timeout_handler`.  The `_loop` slot is the external clock/scheduler and
is passed explicitly as `now` to the operations that read it. -/
structure GracefulTimeout where
  _deadline : Option ℤ
  _state : _State
  _event : Bool
  _checked : Bool
  _timeout_handler : Option Handle
deriving DecidableEq, Repr

namespace GracefulTimeout

/-- `_reject`: cancel the pending handle, if any, and clear the field. -/
def _reject (s : GracefulTimeout) : GracefulTimeout :=
  match s._timeout_handler with
  | some _ => { s with _timeout_handler := none }
  | none => s

/-- `_reschedule`: if `_deadline` is `None`, return with nothing
scheduled; else cancel any pending handle and register the `_on_timeout`
callback via `call_soon` when `deadline <= now`, else via
`call_at deadline`.  (The source asserts `_state == ENTER` on entry.) -/
def _reschedule (now : ℤ) (s : GracefulTimeout) : GracefulTimeout :=
  match s._deadline with
  | none => s
  | some deadline =>
      if deadline ≤ now then
        { s with _timeout_handler := some Handle.soon }
      else
        { s with _timeout_handler := some (Handle.at_time deadline) }

/-- `_on_timeout`: the fire callback.  Sets `_state = TIMEOUT`, sets the
event, and drops the handle reference — unconditionally, with no guard on
the current state. -/
def _on_timeout (s : GracefulTimeout) : GracefulTimeout :=
  { s with _state := _State.TIMEOUT, _event := true, _timeout_handler := none }

/-- `update`: raise after exit or after expiry; otherwise cancel any
pending handle (the handle object is cancelled; the field itself is not
cleared here), store the new deadline, and reschedule unless still INIT. -/
def update (now : ℤ) (s : GracefulTimeout) (deadline : ℤ) :
    GracefulTimeout × Option Err :=
  if s._state = _State.EXIT then (s, some Err.closedError)
  else if s._state = _State.TIMEOUT then (s, some Err.expiredError)
  else
    let s2 := { s with _deadline := some deadline }
    if s2._state ≠ _State.INIT then (_reschedule now s2, none) else (s2, none)

/-- `shift`: raise if `_deadline` is `None`, else delegate to
`update (deadline + delay)`. -/
def shift (now : ℤ) (s : GracefulTimeout) (delay : ℤ) :
    GracefulTimeout × Option Err :=
  match s._deadline with
  | none => (s, some Err.noDeadline)
  | some deadline => update now s (deadline + delay)

/-- `_do_enter`: raise unless INIT, else move to ENTER and reschedule. -/
def _do_enter (now : ℤ) (s : GracefulTimeout) : GracefulTimeout × Option Err :=
  if s._state ≠ _State.INIT then (s, some Err.invalidState)
  else (_reschedule now { s with _state := _State.ENTER }, none)

/-- `_do_exit`: when the surrounding exception is a cancellation and the
state is already TIMEOUT, clear the handle field; then, if the timer was
never checked, raise the usage error (the mutation above persists); else
move to EXIT and `_reject` the pending handle. -/
def _do_exit (exc : ExcType) (s : GracefulTimeout) : GracefulTimeout × Option Err :=
  let s1 :=
    if exc = ExcType.cancelled ∧ s._state = _State.TIMEOUT then
      { s with _timeout_handler := none }
    else s
  if s1._checked = false then (s1, some Err.usageError)
  else (_reject { s1 with _state := _State.EXIT }, none)

/-- `wait`: set `_checked` and await the event.  The returned flag records
whether the event had already fired when `wait` was called, i.e. whether
the await returns immediately instead of suspending until `_on_timeout`
fires it.  The body contains no raise. -/
def wait (s : GracefulTimeout) : (GracefulTimeout × Option Err) × Bool :=
  (({ s with _checked := true }, none), s._event)

/-- `is_running`: await one heartbeat tick (a single scheduler yield, state
untouched), then return `not (_state != TIMEOUT)`.  Note the source does
not set `_checked` here, and the returned Boolean is `_state == TIMEOUT`.
The returned flag is that Boolean, evaluated on the state as it stands
after the one-tick suspension. -/
def is_running (s : GracefulTimeout) : (GracefulTimeout × Option Err) × Bool :=
  ((s, none), !(s._state != _State.TIMEOUT))

/-- `__init__`: start in INIT with the event unfired, unchecked and no
handle; a non-`None` deadline is installed by calling `update` (which, in
INIT, just stores it).  `now` is the clock reading of the owning loop,
unused while INIT. -/
def init (deadline : Option ℤ) (now : ℤ) : GracefulTimeout × Option Err :=
  let base : GracefulTimeout :=
    { _deadline := none, _state := _State.INIT, _event := false,
      _checked := false, _timeout_handler := none }
  match deadline with
  | none => (base, none)
  | some d => update now base d

end GracefulTimeout

/-- `graceful_timeout delay`: build a timer with absolute deadline
`now + delay`, or no deadline when `delay` is `None`. -/
def graceful_timeout (delay : Option ℤ) (now : ℤ) : GracefulTimeout × Option Err :=
  match delay with
  | none => GracefulTimeout.init none now
  | some d => GracefulTimeout.init (some (now + d)) now

/-- `graceful_timeout_at deadline`: build a timer with the given absolute
deadline (or none). -/
def graceful_timeout_at (deadline : Option ℤ) (now : ℤ) : GracefulTimeout × Option Err :=
  GracefulTimeout.init deadline now

/-- The §3 invariant of the spec: the pending-callback handle is non-null
only while the state is ENTER (Active) and the deadline is non-null. -/
abbrev TimerInv (s : GracefulTimeout) : Prop :=
  s._timeout_handler ≠ none → s._state = _State.ENTER ∧ s._deadline ≠ none

/-- A state whose handle field is null satisfies the invariant vacuously. -/
theorem timerInv_of_handler_none (s : GracefulTimeout)
    (h : s._timeout_handler = none) : TimerInv s := fun hc => absurd h hc

/-- `_reject` always leaves the handle field null. -/
theorem reject_handler_none (s : GracefulTimeout) :
    (GracefulTimeout._reject s)._timeout_handler = none := by
  unfold GracefulTimeout._reject
  split <;> simp_all

/-- Unfolding lemma: `_reschedule` with a null deadline is the identity. -/
theorem reschedule_none (now : ℤ) (s : GracefulTimeout)
    (hd : s._deadline = none) : GracefulTimeout._reschedule now s = s := by
  unfold GracefulTimeout._reschedule
  rw [hd]

/-- Unfolding lemma: `_reschedule` with deadline `d` registers `call_soon`
when `d ≤ now` and `call_at d` otherwise. -/
theorem reschedule_some (now : ℤ) (s : GracefulTimeout) (d : ℤ)
    (hd : s._deadline = some d) :
    GracefulTimeout._reschedule now s =
      if d ≤ now then { s with _timeout_handler := some Handle.soon }
      else { s with _timeout_handler := some (Handle.at_time d) } := by
  unfold GracefulTimeout._reschedule
  rw [hd]

/-- `_reschedule` preserves the invariant when called (as the source's
assert demands) on an ENTER-state timer. -/
theorem timerInv_reschedule (now : ℤ) (s : GracefulTimeout) (hs : TimerInv s)
    (h : s._state = _State.ENTER) : TimerInv (GracefulTimeout._reschedule now s) := by
  cases hd : s._deadline with
  | none =>
      rw [reschedule_none now s hd]
      exact hs
  | some d =>
      rw [reschedule_some now s d hd]
      split <;> exact fun _ => ⟨h, by simp [hd]⟩

/-- `init` establishes the invariant. -/
theorem timerInv_init (dl : Option ℤ) (now : ℤ) :
    TimerInv (GracefulTimeout.init dl now).1 := by
  cases dl with
  | none => exact fun hc => absurd rfl hc
  | some d => exact fun hc => absurd rfl hc

/-- `_do_enter` preserves the invariant (both on success and on the
invalid-state error, where the state is returned unmutated). -/
theorem timerInv_enter (now : ℤ) (s : GracefulTimeout) (hs : TimerInv s) :
    TimerInv (GracefulTimeout._do_enter now s).1 := by
  unfold GracefulTimeout._do_enter
  split
  · exact hs
  · rename_i hst
    apply timerInv_reschedule
    · intro hc
      have h1 := (hs hc).1
      simp at hst
      rw [hst] at h1
      exact absurd h1 (by simp)
    · rfl

/-- `_do_exit` preserves the invariant, both when it raises the usage
error and when it closes the timer. -/
theorem timerInv_exit (exc : ExcType) (s : GracefulTimeout) (hs : TimerInv s) :
    TimerInv (GracefulTimeout._do_exit exc s).1 := by
  unfold GracefulTimeout._do_exit
  dsimp only
  split
  · split
    · exact fun hc => absurd rfl hc
    · exact timerInv_of_handler_none _ (reject_handler_none _)
  · split
    · exact hs
    · exact timerInv_of_handler_none _ (reject_handler_none _)

/-- `update` preserves the invariant in every branch. -/
theorem timerInv_update (now : ℤ) (s : GracefulTimeout) (d : ℤ) (hs : TimerInv s) :
    TimerInv (GracefulTimeout.update now s d).1 := by
  unfold GracefulTimeout.update
  split
  · exact hs
  · split
    · exact hs
    · rename_i hex htm
      dsimp only
      split
      · rename_i hin
        apply timerInv_reschedule
        · exact fun hc => ⟨(hs hc).1, by simp⟩
        · cases hst : s._state <;> simp_all
      · exact fun hc => ⟨(hs hc).1, by simp⟩

/-- `shift` preserves the invariant in every branch. -/
theorem timerInv_shift (now : ℤ) (s : GracefulTimeout) (d : ℤ) (hs : TimerInv s) :
    TimerInv (GracefulTimeout.shift now s d).1 := by
  unfold GracefulTimeout.shift
  cases hd : s._deadline with
  | none => exact hs
  | some dl => exact timerInv_update now s (dl + d) hs


/-- C1: the claim says `is_running()` suspends one tick and then returns
`true` iff the state is not Expired, so an Active (ENTER) timer — in
particular one entered with a null deadline — always polls `true`.  The
source instead returns `not (_state != TIMEOUT)`, i.e. `_state == TIMOUT`:
on a freshly entered null-deadline timer (state ENTER after the tick) it
returns `false`, and on an expired timer it returns `true` — the exact
inverse, contradicting the function's own docstring and the module's
while-loop usage examples. -/
theorem is_running_inverted_on_active :
    ((GracefulTimeout._do_enter 0 (graceful_timeout none 0).1).1)._state
        = _State.ENTER ∧
    (GracefulTimeout.is_running
      (GracefulTimeout._do_enter 0 (graceful_timeout none 0).1).1).2 = false ∧
    (GracefulTimeout.is_running
      { _deadline := some 1, _state := _State.TIMEOUT, _event := true,
        _checked := true, _timeout_handler := none }).2 = true := by
  decide

/-- C2: the claim says every `is_running()` call marks the timer observed,
so a scope that polled at least once exits cleanly.  In the source only
`wait()` sets `_checked`; after entering a timer and calling `is_running()`
once, `_checked` is still `false` and a clean exit raises the usage
`RuntimeError` — contradicting the module docstring, whose recommended
while-loop usage never calls `wait()`. -/
theorem is_running_does_not_mark_checked :
    (((GracefulTimeout.is_running
        (GracefulTimeout._do_enter 0 (graceful_timeout none 0).1).1).1.1)._checked
          = false) ∧
    ((GracefulTimeout._do_exit ExcType.noExc
        ((GracefulTimeout.is_running
          (GracefulTimeout._do_enter 0 (graceful_timeout none 0).1).1).1.1)).2
          = some Err.usageError) ∧
    ((GracefulTimeout._do_exit ExcType.noExc
        (GracefulTimeout._do_enter 0 (graceful_timeout none 0).1).1).2
          = some Err.usageError) := by
  decide

/-- C3 counterexample: enter a timer with deadline `0`, let it fire, then
exit while an `asyncio.CancelledError` is propagating, the timer never
having been waited on or polled.  The claim says the observed-check
`UsageError` is suppressed when a real exception is in flight; the source
raises it anyway. -/
theorem do_exit_raises_during_cancellation :
    (GracefulTimeout._do_exit ExcType.cancelled
      (GracefulTimeout._on_timeout
        (GracefulTimeout._do_enter 0 (graceful_timeout (some 0) 0).1).1)).2
      = some Err.usageError := by
  decide

/-- C3 amended: `_do_exit` raises the observed-check `RuntimeError`
whenever `_checked` is false, regardless of whether (or which) exception is
propagating out of the guarded block; the only cancellation-specific
behaviour is clearing the handle field when the exception is a cancellation
and the state is already TIMEOUT.  When the timer was observed, exit never
raises, so no exception leaks from cleanup in the firing/cancellation
race. -/
theorem do_exit_usage_check_unconditional (exc : ExcType) (s : GracefulTimeout) :
    (s._checked = false →
      GracefulTimeout._do_exit exc s =
        (if exc = ExcType.cancelled ∧ s._state = _State.TIMEOUT then
          { s with _timeout_handler := none }
         else s, some Err.usageError)) ∧
    (s._checked = true → (GracefulTimeout._do_exit exc s).2 = none) := by
  unfold GracefulTimeout._do_exit
  dsimp only
  constructor <;> intro h <;> split <;> simp_all

/-- C3 amended, witnessed: a never-observed Active timer closed while an
ordinary exception propagates still yields the usage error. -/
theorem do_exit_usage_check_unconditional_witness :
    GracefulTimeout._do_exit ExcType.other
      { _deadline := none, _state := _State.ENTER, _event := false,
        _checked := false, _timeout_handler := none } =
      ({ _deadline := none, _state := _State.ENTER, _event := false,
         _checked := false, _timeout_handler := none }, some Err.usageError) := by
  have h := (do_exit_usage_check_unconditional ExcType.other
    { _deadline := none, _state := _State.ENTER, _event := false,
      _checked := false, _timeout_handler := none }).1 rfl
  rw [h]
  decide

/-- C4 counterexample: the claim says `_on_timeout` is a no-op on a Closed
timer, so nothing leaves the Closed state.  Invoking `_on_timeout` on a
closed (EXIT) timer moves it to TIMEOUT: the source has no guard. -/
theorem on_timeout_leaves_closed :
    (GracefulTimeout._on_timeout
      { _deadline := some 1, _state := _State.EXIT, _event := true,
        _checked := true, _timeout_handler := none })._state ≠ _State.EXIT := by
  decide

/-- C4 amended: `_on_timeout` unconditionally sets the state to TIMEOUT,
fires the event, and clears the handle, from any state — including Closed,
which it exits; "Closed is terminal" relies on exit cancelling the pending
callback so the scheduler never invokes `_on_timeout` after close, not on
any guard inside the callback. -/
theorem on_timeout_unconditional (s : GracefulTimeout) :
    (GracefulTimeout._on_timeout s)._state = _State.TIMEOUT ∧
    (GracefulTimeout._on_timeout s)._event = true ∧
    (GracefulTimeout._on_timeout s)._timeout_handler = none ∧
    (GracefulTimeout._on_timeout s)._deadline = s._deadline ∧
    (GracefulTimeout._on_timeout s)._checked = s._checked := by
  unfold GracefulTimeout._on_timeout
  exact ⟨rfl, rfl, rfl, rfl, rfl⟩

/-- C5: for an Active timer, `_reschedule` schedules nothing when the
deadline is null; otherwise it replaces any pending callback and registers
the fire callback via `call_soon` (the next scheduling opportunity, never
synchronously) when the deadline is at or before `now`, and via
`call_at deadline` when the deadline is in the future. -/
theorem reschedule_spec (s : GracefulTimeout) (now : ℤ)
    (h : s._state = _State.ENTER) :
    (s._deadline = none → GracefulTimeout._reschedule now s = s) ∧
    ∀ d, s._deadline = some d →
      ((d ≤ now →
          GracefulTimeout._reschedule now s =
            { s with _timeout_handler := some Handle.soon }) ∧
       (now < d →
          GracefulTimeout._reschedule now s =
            { s with _timeout_handler := some (Handle.at_time d) })) := by
  refine ⟨fun hd => reschedule_none now s hd, fun d hd => ⟨fun hc => ?_, fun hc => ?_⟩⟩
  · rw [reschedule_some now s d hd, if_pos hc]
  · rw [reschedule_some now s d hd, if_neg (not_le.2 hc)]

/-- C5 witnessed at a concrete Active timer with a future deadline. -/
theorem reschedule_spec_witness :
    GracefulTimeout._reschedule 3
      { _deadline := some 5, _state := _State.ENTER, _event := false,
        _checked := false, _timeout_handler := some Handle.soon } =
      { _deadline := some 5, _state := _State.ENTER, _event := false,
        _checked := false, _timeout_handler := some (Handle.at_time 5) } :=
  ((reschedule_spec
      { _deadline := some 5, _state := _State.ENTER, _event := false,
        _checked := false, _timeout_handler := some Handle.soon } 3 rfl).2
    5 rfl).2 (by decide)

/-- C6: when the deadline is `d`, `shift delta` is literally
`update (d + delta)` — the same resulting state (hence the same deadline
and the same scheduled fire handle) and the same error outcome; when the
deadline is null, `shift` fails with the no-deadline error and leaves the
state untouched, without invoking `update`. -/
theorem shift_equiv_update (s : GracefulTimeout) (now delta : ℤ) :
    (∀ d, s._deadline = some d →
      GracefulTimeout.shift now s delta = GracefulTimeout.update now s (d + delta)) ∧
    (s._deadline = none →
      GracefulTimeout.shift now s delta = (s, some Err.noDeadline)) := by
  constructor
  · intro d hd
    unfold GracefulTimeout.shift
    rw [hd]
  · intro hd
    unfold GracefulTimeout.shift
    rw [hd]

/-- C6 witnessed: shifting a deadline-5 Active timer by 2 equals updating
it to 7, and both register `call_at 7`. -/
theorem shift_equiv_update_witness :
    GracefulTimeout.shift 3
      { _deadline := some 5, _state := _State.ENTER, _event := false,
        _checked := true, _timeout_handler := some (Handle.at_time 5) } 2 =
    GracefulTimeout.update 3
      { _deadline := some 5, _state := _State.ENTER, _event := false,
        _checked := true, _timeout_handler := some (Handle.at_time 5) } (5 + 2) ∧
    (GracefulTimeout.shift 3
      { _deadline := some 5, _state := _State.ENTER, _event := false,
        _checked := true, _timeout_handler := some (Handle.at_time 5) } 2).1._timeout_handler
      = some (Handle.at_time 7) := by
  refine ⟨(shift_equiv_update
    { _deadline := some 5, _state := _State.ENTER, _event := false,
      _checked := true, _timeout_handler := some (Handle.at_time 5) } 3 2).1 5 rfl, ?_⟩
  decide

/-- C7: `update` on an expired (TIMEOUT) timer always fails with the
cannot-reschedule-expired error, and on a closed (EXIT) timer always fails
with the cannot-reschedule-after-exit error; in both cases the state is
returned unmutated. -/
theorem update_after_expiry_or_close (s : GracefulTimeout) (now d : ℤ) :
    (s._state = _State.TIMEOUT →
      GracefulTimeout.update now s d = (s, some Err.expiredError)) ∧
    (s._state = _State.EXIT →
      GracefulTimeout.update now s d = (s, some Err.closedError)) := by
  constructor <;> intro h <;> unfold GracefulTimeout.update <;> rw [h] <;> simp

/-- C7 witnessed on a fired timer and on a closed timer. -/
theorem update_after_expiry_or_close_witness :
    GracefulTimeout.update 0
      { _deadline := some 1, _state := _State.TIMEOUT, _event := true,
        _checked := true, _timeout_handler := none } 9 =
      ({ _deadline := some 1, _state := _State.TIMEOUT, _event := true,
         _checked := true, _timeout_handler := none }, some Err.expiredError) ∧
    GracefulTimeout.update 0
      { _deadline := some 1, _state := _State.EXIT, _event := true,
        _checked := true, _timeout_handler := none } 9 =
      ({ _deadline := some 1, _state := _State.EXIT, _event := true,
         _checked := true, _timeout_handler := none }, some Err.closedError) :=
  ⟨(update_after_expiry_or_close
      { _deadline := some 1, _state := _State.TIMEOUT, _event := true,
        _checked := true, _timeout_handler := none } 0 9).1 rfl,
   (update_after_expiry_or_close
      { _deadline := some 1, _state := _State.EXIT, _event := true,
        _checked := true, _timeout_handler := none } 0 9).2 rfl⟩

/-- C8: the handle invariant — the pending-callback field is non-null only
while the state is ENTER (Active) and the deadline is non-null (the fire
callback clears the field when it runs) — holds for every freshly
constructed timer and is preserved by enter, exit, update, shift, wait,
is_running, and the fire callback, on their success and their error
outcomes alike. -/
theorem timerInv_established_and_preserved :
    (∀ dl now, TimerInv (GracefulTimeout.init dl now).1) ∧
    (∀ s now, TimerInv s → TimerInv (GracefulTimeout._do_enter now s).1) ∧
    (∀ s exc, TimerInv s → TimerInv (GracefulTimeout._do_exit exc s).1) ∧
    (∀ s now d, TimerInv s → TimerInv (GracefulTimeout.update now s d).1) ∧
    (∀ s now d, TimerInv s → TimerInv (GracefulTimeout.shift now s d).1) ∧
    (∀ s, TimerInv s → TimerInv (GracefulTimeout.wait s).1.1) ∧
    (∀ s, TimerInv s → TimerInv (GracefulTimeout.is_running s).1.1) ∧
    (∀ s, TimerInv (GracefulTimeout._on_timeout s)) :=
  ⟨timerInv_init,
   fun s now hs => timerInv_enter now s hs,
   fun s exc hs => timerInv_exit exc s hs,
   fun s now d hs => timerInv_update now s d hs,
   fun s now d hs => timerInv_shift now s d hs,
   fun s hs => fun hc => hs hc,
   fun s hs => hs,
   fun s => timerInv_of_handler_none _ rfl⟩

/-- C8 witnessed: the invariant survives updating a concrete Active timer
that holds a pending handle. -/
theorem timerInv_preserved_witness :
    TimerInv (GracefulTimeout.update 0
      { _deadline := some 1, _state := _State.ENTER, _event := false,
        _checked := false, _timeout_handler := some (Handle.at_time 1) } 2).1 :=
  timerInv_established_and_preserved.2.2.2.1
    { _deadline := some 1, _state := _State.ENTER, _event := false,
      _checked := false, _timeout_handler := some (Handle.at_time 1) } 0 2
    (by decide)

/-- C9: `wait` never raises, in every state (INIT before entering, ENTER,
TIMEOUT, and EXIT after closing alike): it marks the timer observed by
setting `_checked`, changes nothing else, and its await returns
immediately exactly when the event has already fired (otherwise the caller
stays suspended until `_on_timeout` sets the event). -/
theorem wait_total_in_every_state (s : GracefulTimeout) :
    (GracefulTimeout.wait s).1.2 = none ∧
    (GracefulTimeout.wait s).1.1._checked = true ∧
    ((GracefulTimeout.wait s).2 = true ↔ s._event = true) ∧
    (GracefulTimeout.wait s).1.1._state = s._state ∧
    (GracefulTimeout.wait s).1.1._deadline = s._deadline ∧
    (GracefulTimeout.wait s).1.1._event = s._event ∧
    (GracefulTimeout.wait s).1.1._timeout_handler = s._timeout_handler :=
  ⟨rfl, rfl, Iff.rfl, rfl, rfl, rfl, rfl⟩

/-- C10: whenever `update` or `shift` raises (after close, after expiry,
or — for `shift` — with no deadline set), the timer is returned with every
field exactly as it was before the failing call. -/
theorem failed_mutation_leaves_state_unchanged (s : GracefulTimeout)
    (now d delta : ℤ) :
    (∀ e, (GracefulTimeout.update now s d).2 = some e →
      (GracefulTimeout.update now s d).1 = s) ∧
    (∀ e, (GracefulTimeout.shift now s delta).2 = some e →
      (GracefulTimeout.shift now s delta).1 = s) := by
  have hu : ∀ dd : ℤ, ∀ e, (GracefulTimeout.update now s dd).2 = some e →
      (GracefulTimeout.update now s dd).1 = s := by
    intro dd e he
    unfold GracefulTimeout.update at he ⊢
    split
    · rfl
    · split
      · rfl
      · rename_i h1 h2
        rw [if_neg h1, if_neg h2] at he
        dsimp only at he
        split at he <;> simp at he
  refine ⟨hu d, ?_⟩
  intro e he
  unfold GracefulTimeout.shift at he ⊢
  split at he
  · rfl
  · rename_i dl hd
    exact hu (dl + delta) e he

/-- C10 witnessed: a failing `update` on a closed timer and a failing
`shift` on a deadline-less timer both return the state unchanged. -/
theorem failed_mutation_unchanged_witness :
    (GracefulTimeout.update 0
      { _deadline := some 1, _state := _State.EXIT, _event := true,
        _checked := true, _timeout_handler := none } 9).1 =
      { _deadline := some 1, _state := _State.EXIT, _event := true,
        _checked := true, _timeout_handler := none } ∧
    (GracefulTimeout.shift 0
      { _deadline := none, _state := _State.ENTER, _event := false,
        _checked := false, _timeout_handler := none } 9).1 =
      { _deadline := none, _state := _State.ENTER, _event := false,
        _checked := false, _timeout_handler := none } :=
  ⟨(failed_mutation_leaves_state_unchanged
      { _deadline := some 1, _state := _State.EXIT, _event := true,
        _checked := true, _timeout_handler := none } 0 9 0).1
      Err.closedError (by decide),
   (failed_mutation_leaves_state_unchanged
      { _deadline := none, _state := _State.ENTER, _event := false,
        _checked := false, _timeout_handler := none } 0 0 9).2
      Err.noDeadline (by decide)⟩
